import Mathlib

/-!
Shallow embedding of `src/src/lib.rs` (tlsnpy): a Python wrapper around the
TLS Notary prover (`PyProver`) and the notary server (`PyNotary`).

External collaborators (the notary-client crate, tlsn-prover, tokio
networking, bincode serialization, the notary server) are modelled as an
oracle `Env` of engine operations; opaque external values (provers,
connections, attestations, channels, task handles, ...) are modelled as
wrapper types around `Nat` identifiers.  Each Python-visible method is a
pure function from the receiver state (plus the oracle) to an `OpResult`:
the updated receiver, the Python-level result, and the trace of engine
operations that the method drove to completion on its private Tokio
runtime via `block_on`.  An empty trace means the method drove no async
work at all.
-/

namespace Tlsnpy

/-- Decidable equality for `Except`, needed to evaluate concrete results. -/
instance {ε α : Type} [DecidableEq ε] [DecidableEq α] : DecidableEq (Except ε α) := fun x y =>
  match x, y with
  | .ok a, .ok b =>
    if h : a = b then .isTrue (by rw [h]) else .isFalse (fun hh => by cases hh; exact h rfl)
  | .error a, .error b =>
    if h : a = b then .isTrue (by rw [h]) else .isFalse (fun hh => by cases hh; exact h rfl)
  | .ok _, .error _ => .isFalse (fun hh => by cases hh)
  | .error _, .ok _ => .isFalse (fun hh => by cases hh)

/-- Opaque handle: a built `NotaryClient` (notary-client crate). -/
structure NotaryClient where
  id : Nat
deriving DecidableEq

/-- Opaque handle: a built `NotarizationRequest`. -/
structure NotarizationRequest where
  id : Nat
deriving DecidableEq

/-- Opaque handle: the `accepted` value returned by `request_notarization`
(carries the I/O channel to the notary). -/
structure Accepted where
  id : Nat
deriving DecidableEq

/-- Opaque handle: a built `ProtocolConfig` (tlsn-common). -/
structure ProtocolConfig where
  id : Nat
deriving DecidableEq

/-- Opaque handle: a built `ProverConfig` (tlsn-prover). -/
structure ProverConfig where
  id : Nat
deriving DecidableEq

/-- Opaque handle: a `Prover<state::Setup>` value. -/
structure SetupProver where
  id : Nat
deriving DecidableEq

/-- Opaque handle: a `Prover<state::Closed>` value. -/
structure ClosedProver where
  id : Nat
deriving DecidableEq

/-- Opaque handle: a `Prover<state::Notarize>` value. -/
structure NotarizeProver where
  id : Nat
deriving DecidableEq

/-- Opaque handle: one resolved socket address. -/
structure SockAddr where
  id : Nat
deriving DecidableEq

/-- Opaque handle: a connected `TcpStream`. -/
structure TcpConn where
  id : Nat
deriving DecidableEq

/-- Opaque handle: the MPC-TLS connection future returned by
`prover.connect` (the `fut` of `let (_, fut) = prover.connect(..)`). -/
structure ConnectFut where
  id : Nat
deriving DecidableEq

/-- Opaque handle: a finalized `Attestation` value. -/
structure Attestation where
  id : Nat
deriving DecidableEq

/-- Opaque handle: the `Secrets` value returned alongside the attestation
by `prover.finalize` (discarded by the wrapper). -/
structure Secrets where
  id : Nat
deriving DecidableEq

/-- Opaque handle: the sending half of a `tokio::sync::oneshot` channel. -/
structure ShutdownSender where
  id : Nat
deriving DecidableEq

/-- Opaque handle: a `tokio::task::JoinHandle<()>`. -/
structure TaskHandle where
  id : Nat
deriving DecidableEq

/-- A raised Python exception: its class and its message.  Every error
raised by `lib.rs` is built with `PyRuntimeError::new_err(msg)`, i.e. the
class is always `RuntimeError`. -/
structure PyErr where
  className : String
  msg : String
deriving DecidableEq

/-- `PyRuntimeError::new_err(m)`. -/
def pyRuntimeError (m : String) : PyErr :=
  { className := "RuntimeError", msg := m }

/-- How a `PyErr` renders in a Rust `format!("{e}")` interpolation
(pyo3 displays the exception class followed by the message). -/
def PyErr.display (e : PyErr) : String :=
  e.className ++ ": " ++ e.msg

/-- The `ProverState` enum of `lib.rs`: the phase-typed session value held
in `PyProver.inner`. -/
inductive ProverState where
  | Setup (prover : SetupProver)
  | Closed (prover : ClosedProver)
  | Notarize (prover : NotarizeProver)
deriving DecidableEq

/-- The `PyProver` pyclass.  The `rt: Runtime` field is not data-relevant;
its role (driving async work to completion inside each blocking call) is
represented by the trace component of `OpResult`. -/
structure PyProver where
  notary_host : String
  notary_port : Nat
  server_name : String
  inner : Option ProverState
deriving DecidableEq

/-- `PyProver::new(notary_host, notary_port, server_name)`: stores the
three parameters and an empty session slot.  (The Rust constructor always
returns `Ok`.) -/
def PyProver.new (notary_host : String) (notary_port : Nat) (server_name : String) : PyProver :=
  { notary_host := notary_host
    notary_port := notary_port
    server_name := server_name
    inner := none }

/-- One engine/network operation driven to completion on the wrapper's
private Tokio runtime inside `block_on`.  A method's trace is the list of
such operations it drove, in order; an empty trace means the method drove
no async work (no network I/O, no suspension). -/
inductive Call where
  | buildNotaryClient (host : String) (port : Nat) (enable_tls : Bool)
  | buildRequest (max_sent_data max_recv_data : Nat)
  | requestNotarization
  | buildProtocolConfig (max_sent_data max_recv_data : Nat)
  | buildProverConfig (server_name : String)
  | setup
  | resolve (host : String) (port : Nat)
  | tcpConnect (addr : SockAddr)
  | proverConnect
  | awaitConnectFut
  | finalize
  | serialize
deriving DecidableEq

/-- The oracle for all external (engine) operations that `lib.rs`
delegates to.  Each field gives the outcome of one external call; errors
are the `anyhow`-formatted cause strings. -/
structure Env where
  buildNotaryClient : String → Nat → Bool → Except String NotaryClient
  buildRequest : Nat → Nat → Except String NotarizationRequest
  requestNotarization : NotaryClient → NotarizationRequest → Except String Accepted
  buildProtocolConfig : Nat → Nat → Except String ProtocolConfig
  buildProverConfig : String → ProtocolConfig → Except String ProverConfig
  setup : ProverConfig → Accepted → Except String SetupProver
  resolve : String → Nat → Except String (List SockAddr)
  tcpConnect : SockAddr → Except String TcpConn
  proverConnect : SetupProver → TcpConn → Except String ConnectFut
  awaitConnectFut : ConnectFut → Except String ClosedProver
  startNotarize : ClosedProver → NotarizeProver
  finalize : NotarizeProver → Except String (Attestation × Secrets)
  serialize : Attestation → Except String (List Nat)

/-- Outcome of one `PyProver` method call: the receiver after the call,
the Python-level result, and the trace of engine operations driven. -/
structure OpResult (α : Type) where
  state : PyProver
  result : Except PyErr α
  trace : List Call

/-- The async block of `PyProver::reset` (lines 65-91 of `lib.rs`): build
the notary client, build the notarization request (limits hard-coded to
10000/10000), request notarization, build the protocol config (limits
hard-coded to 10000/10000), build the prover config, run the setup
exchange.  Any step's failure aborts the chain (the Rust `?`). -/
def resetEngine (env : Env) (s : PyProver) : Except String SetupProver × List Call :=
  match env.buildNotaryClient s.notary_host s.notary_port false with
  | .error e => (.error e, [.buildNotaryClient s.notary_host s.notary_port false])
  | .ok notary_client =>
    match env.buildRequest 10000 10000 with
    | .error e =>
      (.error e,
       [.buildNotaryClient s.notary_host s.notary_port false, .buildRequest 10000 10000])
    | .ok request =>
      match env.requestNotarization notary_client request with
      | .error e =>
        (.error e,
         [.buildNotaryClient s.notary_host s.notary_port false, .buildRequest 10000 10000,
          .requestNotarization])
      | .ok accepted =>
        match env.buildProtocolConfig 10000 10000 with
        | .error e =>
          (.error e,
           [.buildNotaryClient s.notary_host s.notary_port false, .buildRequest 10000 10000,
            .requestNotarization, .buildProtocolConfig 10000 10000])
        | .ok protocol_config =>
          match env.buildProverConfig s.server_name protocol_config with
          | .error e =>
            (.error e,
             [.buildNotaryClient s.notary_host s.notary_port false, .buildRequest 10000 10000,
              .requestNotarization, .buildProtocolConfig 10000 10000,
              .buildProverConfig s.server_name])
          | .ok config =>
            match env.setup config accepted with
            | .error e =>
              (.error e,
               [.buildNotaryClient s.notary_host s.notary_port false, .buildRequest 10000 10000,
                .requestNotarization, .buildProtocolConfig 10000 10000,
                .buildProverConfig s.server_name, .setup])
            | .ok prover =>
              (.ok prover,
               [.buildNotaryClient s.notary_host s.notary_port false, .buildRequest 10000 10000,
                .requestNotarization, .buildProtocolConfig 10000 10000,
                .buildProverConfig s.server_name, .setup])

/-- `PyProver::reset` (lines 64-96 of `lib.rs`): run the setup chain under
`block_on`; on failure return early with `Setup failed: {e}` leaving
`self.inner` untouched; on success store `Some(ProverState::Setup(..))`. -/
def PyProver.reset (env : Env) (self : PyProver) : OpResult Unit :=
  match resetEngine env self with
  | (.error e, t) => ⟨self, .error (pyRuntimeError ("Setup failed: " ++ e)), t⟩
  | (.ok prover, t) => ⟨{ self with inner := some (.Setup prover) }, .ok (), t⟩

/-- The async block of `PyProver::connect` (lines 104-112 of `lib.rs`):
resolve the target, keep only the first resolved address (`.next()`,
erroring with `Invalid server address` when there is none), open the TCP
connection, start the prover's connect exchange and await its future. -/
def connectEngine (env : Env) (prover : SetupProver) (server_host : String)
    (server_port : Nat) : Except String ClosedProver × List Call :=
  match env.resolve server_host server_port with
  | .error e => (.error e, [.resolve server_host server_port])
  | .ok addrs =>
    match addrs with
    | [] => (.error ("Invalid server address"), [.resolve server_host server_port])
    | addr :: _ =>
      match env.tcpConnect addr with
      | .error e => (.error e, [.resolve server_host server_port, .tcpConnect addr])
      | .ok conn =>
        match env.proverConnect prover conn with
        | .error e =>
          (.error e, [.resolve server_host server_port, .tcpConnect addr, .proverConnect])
        | .ok fut =>
          match env.awaitConnectFut fut with
          | .error e =>
            (.error e,
             [.resolve server_host server_port, .tcpConnect addr, .proverConnect,
              .awaitConnectFut])
          | .ok closed =>
            (.ok closed,
             [.resolve server_host server_port, .tcpConnect addr, .proverConnect,
              .awaitConnectFut])

/-- `PyProver::connect` (lines 98-117 of `lib.rs`).  Note that the Rust
code matches on `self.inner.take()`: the slot is emptied before the phase
is checked, so a wrong-state call leaves the slot empty even when it held
a (non-`Setup`) session. -/
def PyProver.connect (env : Env) (self : PyProver) (server_host : String)
    (server_port : Nat) : OpResult Unit :=
  match self.inner with
  | some (.Setup prover) =>
    let taken := { self with inner := none }
    match connectEngine env prover server_host server_port with
    | (.error e, t) => ⟨taken, .error (pyRuntimeError ("Connect failed: " ++ e)), t⟩
    | (.ok closed, t) => ⟨{ self with inner := some (.Closed closed) }, .ok (), t⟩
  | _ => ⟨{ self with inner := none }, .error (pyRuntimeError ("No setup prover available")), []⟩

/-- `PyProver::start_notarize` (lines 119-127 of `lib.rs`): with a
`Closed` session held, promote it via the engine's synchronous, infallible
`start_notarize`; no `block_on` is issued (empty trace).  As with
`connect`, the Rust `self.inner.take()` empties the slot before the phase
check. -/
def PyProver.start_notarize (env : Env) (self : PyProver) : OpResult Unit :=
  match self.inner with
  | some (.Closed prover) =>
    ⟨{ self with inner := some (.Notarize (env.startNotarize prover)) }, .ok (), []⟩
  | _ => ⟨{ self with inner := none }, .error (pyRuntimeError ("No closed prover available")), []⟩

/-- The async block of `PyProver::finalize_notarize` (lines 135-139 of
`lib.rs`): finalize with a default `RequestConfig`, then
`bincode::serialize` the attestation. -/
def finalizeEngine (env : Env) (prover : NotarizeProver) :
    Except String (List Nat) × List Call :=
  match env.finalize prover with
  | .error e => (.error e, [.finalize])
  | .ok (attestation, _secrets) =>
    match env.serialize attestation with
    | .error e => (.error e, [.finalize, .serialize])
    | .ok result => (.ok result, [.finalize, .serialize])

/-- `PyProver::finalize_notarize` (lines 129-143 of `lib.rs`): take the
`Notarize` session (the `take` empties the slot first, also on a
wrong-state call), drive the finalize exchange and serialization; on their
failure return `Finalization failed: {e}` with the slot left empty; on
success call `self.reset()`, mapping a reset failure to
`Reset failed after finalize: {e}` (the serialized bytes are dropped),
and return the bytes otherwise. -/
def PyProver.finalize_notarize (env : Env) (self : PyProver) : OpResult (List Nat) :=
  match self.inner with
  | some (.Notarize prover) =>
    let taken := { self with inner := none }
    match finalizeEngine env prover with
    | (.error e, t) => ⟨taken, .error (pyRuntimeError ("Finalization failed: " ++ e)), t⟩
    | (.ok result, t) =>
      match PyProver.reset env taken with
      | ⟨s2, .error e, t2⟩ =>
        ⟨s2, .error (pyRuntimeError ("Reset failed after finalize: " ++ e.display)), t ++ t2⟩
      | ⟨s2, .ok _, t2⟩ => ⟨s2, .ok result, t ++ t2⟩
  | _ => ⟨{ self with inner := none }, .error (pyRuntimeError ("No notarize prover available")), []⟩

/-- `ServerProperties` of the notary-server crate, as filled by
`PyNotary::new`. -/
structure ServerProperties where
  name : String
  host : String
  port : Nat
  html_info : String
deriving DecidableEq

/-- `NotarizationProperties` of the notary-server crate. -/
structure NotarizationProperties where
  max_sent_data : Nat
  max_recv_data : Nat
  timeout : Nat
deriving DecidableEq

/-- `TLSProperties` of the notary-server crate. -/
structure TLSProperties where
  enabled : Bool
  private_key_pem_path : Option String
  certificate_pem_path : Option String
deriving DecidableEq

/-- `NotarySigningKeyProperties` of the notary-server crate. -/
structure NotarySigningKeyProperties where
  private_key_pem_path : String
  public_key_pem_path : String
deriving DecidableEq

/-- `LoggingProperties`: only the fields `PyNotary::new` sets explicitly
(`level`, `filter`); the remaining fields take crate defaults. -/
structure LoggingProperties where
  level : String
  filter : Option String
deriving DecidableEq

/-- `AuthorizationProperties` of the notary-server crate. -/
structure AuthorizationProperties where
  enabled : Bool
  whitelist_csv_path : Option String
deriving DecidableEq

/-- `NotaryServerProperties`: the full server configuration value. -/
structure NotaryServerProperties where
  server : ServerProperties
  notarization : NotarizationProperties
  tls : TLSProperties
  notary_key : NotarySigningKeyProperties
  logging : LoggingProperties
  authorization : AuthorizationProperties
deriving DecidableEq

/-- The `PyNotary` pyclass: the immutable configuration plus the two
optional lifecycle slots.  The `rt: Runtime` field is modelled by
`RuntimeState` (a fresh-id supply for channels and task handles). -/
structure PyNotary where
  config : NotaryServerProperties
  server_handle : Option TaskHandle
  shutdown_tx : Option ShutdownSender
deriving DecidableEq

/-- The Tokio runtime's contribution to `PyNotary::start`: a supply of
fresh identifiers for the oneshot channel and the spawned task handle. -/
structure RuntimeState where
  next_id : Nat
deriving DecidableEq

/-- An effect performed by a `PyNotary` method: creating the oneshot
channel, spawning the server task, sending the shutdown signal, or
blocking on the task handle until the task terminates. -/
inductive NotaryEffect where
  | createChannel (tx : ShutdownSender)
  | spawnServer (handle : TaskHandle) (config : NotaryServerProperties)
  | sendShutdown (tx : ShutdownSender)
  | awaitTask (handle : TaskHandle)
deriving DecidableEq

/-- Outcome of one `PyNotary` method call: the receiver after the call,
the Python-level result, and the ordered effects performed. -/
structure NotaryResult (α : Type) where
  state : PyNotary
  result : Except PyErr α
  effects : List NotaryEffect

/-- `PyNotary::new` (lines 165-216 of `lib.rs`): builds the configuration
value and leaves both lifecycle slots empty.  (The Rust constructor always
returns `Ok`.) -/
def PyNotary.new (host : String) (port : Nat) (max_sent_data max_recv_data : Nat)
    (timeout_seconds : Nat) (tls_enabled : Bool)
    (tls_cert_path tls_key_path : Option String)
    (notary_key_path notary_pub_key_path : String) : PyNotary :=
  { config :=
      { server := { name := "PyNotary", host := host, port := port, html_info := "" }
        notarization :=
          { max_sent_data := max_sent_data
            max_recv_data := max_recv_data
            timeout := timeout_seconds }
        tls :=
          { enabled := tls_enabled
            private_key_pem_path := tls_key_path
            certificate_pem_path := tls_cert_path }
        notary_key :=
          { private_key_pem_path := notary_key_path
            public_key_pem_path := notary_pub_key_path }
        logging := { level := "info", filter := none }
        authorization := { enabled := false, whitelist_csv_path := none } }
    server_handle := none
    shutdown_tx := none }

/-- `PyNotary::start` (lines 218-257 of `lib.rs`): create a fresh oneshot
channel and store its sender (unconditionally overwriting any previous
one), spawn the server task (which races the shutdown signal against the
server's own completion) and store its handle (again overwriting
unconditionally), then return immediately with `Ok`. -/
def PyNotary.start (rt : RuntimeState) (self : PyNotary) :
    RuntimeState × NotaryResult Unit :=
  let shutdown_tx : ShutdownSender := ⟨rt.next_id⟩
  let handle : TaskHandle := ⟨rt.next_id + 1⟩
  (⟨rt.next_id + 2⟩,
   ⟨{ self with shutdown_tx := some shutdown_tx, server_handle := some handle },
    .ok (),
    [.createChannel shutdown_tx, .spawnServer handle self.config]⟩)

/-- `PyNotary::stop` (lines 259-273 of `lib.rs`): if a shutdown sender is
held, take it and send (the send result is ignored); then, if a task
handle is held, take it and `block_on` awaiting it; return `Ok`. -/
def PyNotary.stop (self : PyNotary) : NotaryResult Unit :=
  let step1 : PyNotary × List NotaryEffect :=
    match self.shutdown_tx with
    | some tx => ({ self with shutdown_tx := none }, [.sendShutdown tx])
    | none => (self, [])
  let step2 : PyNotary × List NotaryEffect :=
    match step1.1.server_handle with
    | some handle => ({ step1.1 with server_handle := none }, [.awaitTask handle])
    | none => (step1.1, [])
  ⟨step2.1, .ok (), step1.2 ++ step2.2⟩

/-! ## Concrete fixtures

Concrete oracles and states used by the witness and counterexample
theorems below. -/

/-- An oracle on which every engine operation succeeds. -/
def happyEnv : Env where
  buildNotaryClient := fun _ _ _ => .ok ⟨1⟩
  buildRequest := fun _ _ => .ok ⟨2⟩
  requestNotarization := fun _ _ => .ok ⟨3⟩
  buildProtocolConfig := fun _ _ => .ok ⟨4⟩
  buildProverConfig := fun _ _ => .ok ⟨5⟩
  setup := fun _ _ => .ok ⟨6⟩
  resolve := fun _ _ => .ok [⟨0⟩]
  tcpConnect := fun _ => .ok ⟨7⟩
  proverConnect := fun _ _ => .ok ⟨8⟩
  awaitConnectFut := fun _ => .ok ⟨9⟩
  startNotarize := fun prover => ⟨prover.id + 100⟩
  finalize := fun _ => .ok (⟨10⟩, ⟨11⟩)
  serialize := fun _ => .ok [1, 2, 3]

/-- `happyEnv`, except that building the notary client fails. -/
def clientFailEnv : Env :=
  { happyEnv with buildNotaryClient := fun _ _ _ => .error ("client down") }

/-- `happyEnv`, except that the finalize exchange fails. -/
def finalizeFailEnv : Env :=
  { happyEnv with finalize := fun _ => .error ("mpc failed") }

/-- `happyEnv`, except that address resolution yields no address. -/
def noAddrEnv : Env :=
  { happyEnv with resolve := fun _ _ => .ok [] }

/-- `happyEnv`, except that the prover's connect exchange fails. -/
def engineFailEnv : Env :=
  { happyEnv with proverConnect := fun _ _ => .error ("engine exchange failed") }

/-- A freshly constructed prover wrapper (the spec's concrete scenario). -/
def prover0 : PyProver := PyProver.new "localhost" 7047 "example.com"

/-- A wrapper holding a `Closed`-phase session. -/
def proverClosed : PyProver := { prover0 with inner := some (.Closed ⟨7⟩) }

/-- A wrapper holding a `Setup`-phase session. -/
def proverSetup : PyProver := { prover0 with inner := some (.Setup ⟨5⟩) }

/-- A wrapper holding a `Notarize`-phase session. -/
def proverNotarize : PyProver := { prover0 with inner := some (.Notarize ⟨9⟩) }

/-- A freshly constructed notary wrapper (no session started). -/
def notary0 : PyNotary :=
  PyNotary.new "0.0.0.0" 7047 4096 16384 1800 false none none "key.pem" "key.pub"

/-- A fresh runtime id supply. -/
def rt0 : RuntimeState := ⟨0⟩

/-! ## Helper lemmas -/

/-- `reset` either succeeds and stores a fresh `Setup` session, or fails
with a `Setup failed` error and leaves the receiver entirely unchanged. -/
theorem reset_cases (env : Env) (s : PyProver) :
    ((PyProver.reset env s).result = .ok () ∧
      ∃ p, (PyProver.reset env s).state = { s with inner := some (.Setup p) }) ∨
    ((∃ m, (PyProver.reset env s).result = .error (pyRuntimeError ("Setup failed: " ++ m))) ∧
      (PyProver.reset env s).state = s) := by
  cases hE : resetEngine env s with
  | mk res t =>
    cases res with
    | error e =>
      right
      exact ⟨⟨e, by simp [PyProver.reset, hE]⟩, by simp [PyProver.reset, hE]⟩
    | ok p =>
      left
      exact ⟨by simp [PyProver.reset, hE], ⟨p, by simp [PyProver.reset, hE]⟩⟩

/-- `reset` drives exactly the engine operations of its async block. -/
theorem reset_trace (env : Env) (s : PyProver) :
    (PyProver.reset env s).trace = (resetEngine env s).2 := by
  cases hE : resetEngine env s with
  | mk res t => cases res <;> simp [PyProver.reset, hE]

/-- When the setup chain succeeds, every one of its six engine operations
was driven, in order. -/
theorem resetEngine_ok_trace (env : Env) (s : PyProver) (p : SetupProver)
    (h : (resetEngine env s).1 = .ok p) :
    (resetEngine env s).2 =
      [.buildNotaryClient s.notary_host s.notary_port false, .buildRequest 10000 10000,
       .requestNotarization, .buildProtocolConfig 10000 10000,
       .buildProverConfig s.server_name, .setup] := by
  unfold resetEngine at h ⊢
  repeat' split at h
  all_goals simp_all

/-- Every engine operation that the setup chain drives is one of the six
operations of `PyProver::reset`, with the limits fixed at 10000. -/
theorem resetEngine_trace_calls (env : Env) (s : PyProver) :
    ∀ c ∈ (resetEngine env s).2,
      c = Call.buildNotaryClient s.notary_host s.notary_port false ∨
      c = Call.buildRequest 10000 10000 ∨
      c = Call.requestNotarization ∨
      c = Call.buildProtocolConfig 10000 10000 ∨
      c = Call.buildProverConfig s.server_name ∨
      c = Call.setup := by
  intro c hc
  unfold resetEngine at hc
  repeat' split at hc
  all_goals simp_all
  all_goals tauto

/-- A `connect` call without a `Setup` session held: the `take` empties
the slot, the wrong-state error is raised, nothing is driven. -/
theorem connect_no_setup (env : Env) (s : PyProver) (server_host : String) (server_port : Nat)
    (h : ∀ p, s.inner ≠ some (.Setup p)) :
    PyProver.connect env s server_host server_port =
      ⟨{ s with inner := none }, .error (pyRuntimeError ("No setup prover available")), []⟩ := by
  cases hs : s.inner with
  | none => simp [PyProver.connect, hs]
  | some st =>
    cases st with
    | Setup p => exact absurd hs (h p)
    | Closed p => simp [PyProver.connect, hs]
    | Notarize p => simp [PyProver.connect, hs]

/-- A `start_notarize` call without a `Closed` session held. -/
theorem start_notarize_no_closed (env : Env) (s : PyProver)
    (h : ∀ p, s.inner ≠ some (.Closed p)) :
    PyProver.start_notarize env s =
      ⟨{ s with inner := none }, .error (pyRuntimeError ("No closed prover available")), []⟩ := by
  cases hs : s.inner with
  | none => simp [PyProver.start_notarize, hs]
  | some st =>
    cases st with
    | Setup p => simp [PyProver.start_notarize, hs]
    | Closed p => exact absurd hs (h p)
    | Notarize p => simp [PyProver.start_notarize, hs]

/-- A `finalize_notarize` call without a `Notarize` session held. -/
theorem finalize_notarize_no_notarize (env : Env) (s : PyProver)
    (h : ∀ p, s.inner ≠ some (.Notarize p)) :
    PyProver.finalize_notarize env s =
      ⟨{ s with inner := none }, .error (pyRuntimeError ("No notarize prover available")), []⟩ := by
  cases hs : s.inner with
  | none => simp [PyProver.finalize_notarize, hs]
  | some st =>
    cases st with
    | Setup p => simp [PyProver.finalize_notarize, hs]
    | Closed p => simp [PyProver.finalize_notarize, hs]
    | Notarize p => exact absurd hs (h p)

/-- A successful `start_notarize` call came from a `Closed` session and
stored its promotion. -/
theorem start_notarize_ok (env : Env) (s : PyProver)
    (h : (PyProver.start_notarize env s).result = .ok ()) :
    ∃ c, s.inner = some (.Closed c) ∧
      (PyProver.start_notarize env s).state =
        { s with inner := some (.Notarize (env.startNotarize c)) } := by
  cases hs : s.inner with
  | none => simp [PyProver.start_notarize, hs] at h
  | some st =>
    cases st with
    | Setup p => simp [PyProver.start_notarize, hs] at h
    | Closed p => exact ⟨p, rfl, by simp [PyProver.start_notarize, hs]⟩
    | Notarize p => simp [PyProver.start_notarize, hs] at h

/-- With a `Setup` session held, `connect` drives exactly the engine
operations of its async block. -/
theorem connect_trace (env : Env) (s : PyProver) (p : SetupProver)
    (server_host : String) (server_port : Nat)
    (hp : s.inner = some (.Setup p)) :
    (PyProver.connect env s server_host server_port).trace =
      (connectEngine env p server_host server_port).2 := by
  cases hE : connectEngine env p server_host server_port with
  | mk res t => cases res <;> simp [PyProver.connect, hp, hE]

/-! ## Claim theorems -/

/-- C1 (amended): invoking `connect`, `start_notarize` or
`finalize_notarize` while the session slot is empty or holds a session in
a non-matching phase returns the wrong-state `RuntimeError` and drives no
engine work, and afterwards the slot is empty: an empty slot stays empty,
but a held non-matching session is consumed by the `take` and lost — the
slot is not left unchanged. -/
theorem c1_wrong_state_empties_slot (env : Env) (s : PyProver)
    (server_host : String) (server_port : Nat) :
    ((∀ p, s.inner ≠ some (.Setup p)) →
      (PyProver.connect env s server_host server_port).result =
        .error (pyRuntimeError ("No setup prover available")) ∧
      (PyProver.connect env s server_host server_port).state = { s with inner := none } ∧
      (PyProver.connect env s server_host server_port).trace = []) ∧
    ((∀ p, s.inner ≠ some (.Closed p)) →
      (PyProver.start_notarize env s).result =
        .error (pyRuntimeError ("No closed prover available")) ∧
      (PyProver.start_notarize env s).state = { s with inner := none } ∧
      (PyProver.start_notarize env s).trace = []) ∧
    ((∀ p, s.inner ≠ some (.Notarize p)) →
      (PyProver.finalize_notarize env s).result =
        .error (pyRuntimeError ("No notarize prover available")) ∧
      (PyProver.finalize_notarize env s).state = { s with inner := none } ∧
      (PyProver.finalize_notarize env s).trace = []) := by
  refine ⟨fun h => ?_, fun h => ?_, fun h => ?_⟩
  · rw [connect_no_setup env s server_host server_port h]
    exact ⟨rfl, rfl, rfl⟩
  · rw [start_notarize_no_closed env s h]
    exact ⟨rfl, rfl, rfl⟩
  · rw [finalize_notarize_no_notarize env s h]
    exact ⟨rfl, rfl, rfl⟩

/-- C1 counterexample: calling `connect` while a `Closed`-phase session is
held returns the wrong-state error, but the held session is NOT still
held afterwards — the slot has been emptied, refuting the claim that a
held session in a non-matching phase is unmodified after the call. -/
theorem c1_counterexample :
    proverClosed.inner = some (.Closed ⟨7⟩) ∧
    (PyProver.connect happyEnv proverClosed "example.com" 443).result =
      .error (pyRuntimeError ("No setup prover available")) ∧
    (PyProver.connect happyEnv proverClosed "example.com" 443).state.inner = none ∧
    (PyProver.connect happyEnv proverClosed "example.com" 443).state.inner ≠
      proverClosed.inner := by
  refine ⟨rfl, rfl, rfl, ?_⟩
  decide

/-- C1 witness: the wrong-state behaviour at a concrete empty-slot
state. -/
theorem c1_witness :
    (PyProver.connect happyEnv prover0 "example.com" 443).result =
      .error (pyRuntimeError ("No setup prover available")) ∧
    (PyProver.connect happyEnv prover0 "example.com" 443).state =
      { prover0 with inner := none } ∧
    (PyProver.connect happyEnv prover0 "example.com" 443).trace = [] :=
  (c1_wrong_state_empties_slot happyEnv prover0 "example.com" 443).1
    (fun p hp => by simp [prover0, PyProver.new] at hp)

/-- C5 (amended): if `reset` fails at any step of its setup chain, the
receiver is left entirely unchanged — an empty slot stays empty, but a
previously held session (of any phase) is still held, NOT cleared — and
the call reports an engine-level `Setup failed` error. -/
theorem c5_reset_failure_leaves_state_unchanged (env : Env) (s : PyProver) (e : PyErr)
    (h : (PyProver.reset env s).result = .error e) :
    (PyProver.reset env s).state = s ∧
    ∃ m, e = pyRuntimeError ("Setup failed: " ++ m) := by
  rcases reset_cases env s with ⟨hok, _⟩ | ⟨⟨m, hm⟩, hstate⟩
  · rw [hok] at h
    cases h
  · refine ⟨hstate, m, ?_⟩
    rw [h] at hm
    injection hm

/-- C5 counterexample: a `reset` that fails while a `Setup`-phase session
is held leaves that previous session in the slot — the slot is NOT empty
after the failed call, refuting the claim. -/
theorem c5_counterexample :
    proverSetup.inner = some (.Setup ⟨5⟩) ∧
    (PyProver.reset clientFailEnv proverSetup).result =
      .error (pyRuntimeError ("Setup failed: client down")) ∧
    (PyProver.reset clientFailEnv proverSetup).state.inner = some (.Setup ⟨5⟩) ∧
    (PyProver.reset clientFailEnv proverSetup).state.inner ≠ none := by
  refine ⟨rfl, rfl, rfl, ?_⟩
  decide

/-- C5 witness: the amended statement at a concrete failing oracle and a
concrete (empty-slot) state. -/
theorem c5_witness :
    (PyProver.reset clientFailEnv prover0).state = prover0 ∧
    ∃ m, pyRuntimeError ("Setup failed: client down") =
      pyRuntimeError ("Setup failed: " ++ m) :=
  c5_reset_failure_leaves_state_unchanged clientFailEnv prover0
    (pyRuntimeError ("Setup failed: client down")) rfl

/-- C7: `start_notarize` is a pure phase promotion: it never drives any
async/network work (its trace is always empty); with a `Closed`-phase
session held it always succeeds and stores the promoted
`Notarize`-phase session; and the only possible error is the wrong-state
precondition violation, raised exactly when no `Closed` session is
held. -/
theorem c7_start_notarize_pure (env : Env) (s : PyProver) :
    (PyProver.start_notarize env s).trace = [] ∧
    (∀ c, s.inner = some (.Closed c) →
      (PyProver.start_notarize env s).result = .ok () ∧
      (PyProver.start_notarize env s).state =
        { s with inner := some (.Notarize (env.startNotarize c)) }) ∧
    (∀ e, (PyProver.start_notarize env s).result = .error e →
      e = pyRuntimeError ("No closed prover available") ∧
      ∀ c, s.inner ≠ some (.Closed c)) := by
  refine ⟨?_, fun c hc => ?_, fun e he => ?_⟩
  · cases hs : s.inner with
    | none => simp [PyProver.start_notarize, hs]
    | some st => cases st <;> simp [PyProver.start_notarize, hs]
  · exact ⟨by simp [PyProver.start_notarize, hc], by simp [PyProver.start_notarize, hc]⟩
  · cases hs : s.inner with
    | none =>
      simp [PyProver.start_notarize, hs] at he
      exact ⟨he.symm, fun c hc => by simp [hs] at hc⟩
    | some st =>
      cases st with
      | Setup p =>
        simp [PyProver.start_notarize, hs] at he
        exact ⟨he.symm, fun c hc => by simp [hs] at hc⟩
      | Closed p => simp [PyProver.start_notarize, hs] at he
      | Notarize p =>
        simp [PyProver.start_notarize, hs] at he
        exact ⟨he.symm, fun c hc => by simp [hs] at hc⟩

/-- C7 witness: promotion at a concrete `Closed`-phase state. -/
theorem c7_witness :
    (PyProver.start_notarize happyEnv proverClosed).trace = [] ∧
    (PyProver.start_notarize happyEnv proverClosed).result = .ok () ∧
    (PyProver.start_notarize happyEnv proverClosed).state =
      { proverClosed with inner := some (.Notarize ⟨107⟩) } :=
  ⟨(c7_start_notarize_pure happyEnv proverClosed).1,
   ((c7_start_notarize_pure happyEnv proverClosed).2.1 ⟨7⟩ rfl).1,
   ((c7_start_notarize_pure happyEnv proverClosed).2.1 ⟨7⟩ rfl).2⟩

/-- With an empty slot, `connect` raises the wrong-state error. -/
theorem connect_on_none_result (env : Env) (s : PyProver) (host : String) (port : Nat)
    (h : s.inner = none) :
    (PyProver.connect env s host port).result =
      .error (pyRuntimeError ("No setup prover available")) := by
  rw [connect_no_setup env s host port (fun p hp => by rw [h] at hp; cases hp)]

/-- C2: after a successful `reset` → `connect` → `start_notarize` →
`finalize_notarize` sequence on one wrapper, the session slot holds a
`Setup`-phase session again (auto re-initialized by the finalize call),
and the finalize call returned exactly the serialized bytes of the
attestation produced by the engine's finalize exchange. -/
theorem c2_successful_sequence (env : Env) (s0 s1 s2 s3 : PyProver)
    (server_host : String) (server_port : Nat) (bs : List Nat)
    (h1 : (PyProver.reset env s0).result = .ok ())
    (hs1 : (PyProver.reset env s0).state = s1)
    (h2 : (PyProver.connect env s1 server_host server_port).result = .ok ())
    (hs2 : (PyProver.connect env s1 server_host server_port).state = s2)
    (h3 : (PyProver.start_notarize env s2).result = .ok ())
    (hs3 : (PyProver.start_notarize env s2).state = s3)
    (h4 : (PyProver.finalize_notarize env s3).result = .ok bs) :
    (∃ p, (PyProver.finalize_notarize env s3).state.inner = some (.Setup p)) ∧
    ∃ q att secrets,
      s3.inner = some (.Notarize q) ∧
      env.finalize q = .ok (att, secrets) ∧
      env.serialize att = .ok bs := by
  obtain ⟨c, hc, hstate3⟩ := start_notarize_ok env s2 h3
  have hq : s3.inner = some (.Notarize (env.startNotarize c)) := by
    rw [← hs3, hstate3]
  cases hf : env.finalize (env.startNotarize c) with
  | error e =>
    exact absurd h4 (by simp [PyProver.finalize_notarize, hq, finalizeEngine, hf])
  | ok pr =>
    obtain ⟨att, secrets⟩ := pr
    cases hser : env.serialize att with
    | error e =>
      exact absurd h4 (by simp [PyProver.finalize_notarize, hq, finalizeEngine, hf, hser])
    | ok bytes =>
      cases hR : PyProver.reset env { s3 with inner := none } with
      | mk rst rres rtr =>
        cases rres with
        | error e2 =>
          exact absurd h4
            (by simp [PyProver.finalize_notarize, hq, finalizeEngine, hf, hser, hR])
        | ok u =>
          have hbs : bytes = bs := by
            have h4c := h4
            simp [PyProver.finalize_notarize, hq, finalizeEngine, hf, hser, hR] at h4c
            exact h4c
          rcases reset_cases env { s3 with inner := none } with ⟨hrok, p, hrst⟩ | ⟨⟨m, hrerr⟩, _⟩
          · refine ⟨⟨p, ?_⟩, env.startNotarize c, att, secrets, hq, hf, hbs ▸ hser⟩
            have hstEq : (PyProver.finalize_notarize env s3).state = rst := by
              simp [PyProver.finalize_notarize, hq, finalizeEngine, hf, hser, hR]
            rw [hstEq]
            rw [hR] at hrst
            simp at hrst
            rw [hrst]
          · rw [hR] at hrerr
            simp at hrerr

/-- C2 witness fixtures: the concrete intermediate states of the happy
sequence. -/
def c2s1 : PyProver := (PyProver.reset happyEnv prover0).state

/-- Second intermediate state of the happy sequence. -/
def c2s2 : PyProver := (PyProver.connect happyEnv c2s1 "example.com" 443).state

/-- Third intermediate state of the happy sequence. -/
def c2s3 : PyProver := (PyProver.start_notarize happyEnv c2s2).state

/-- C2 witness: the happy sequence at the concrete oracle. -/
theorem c2_witness :
    (∃ p, (PyProver.finalize_notarize happyEnv c2s3).state.inner = some (.Setup p)) ∧
    ∃ q att secrets,
      c2s3.inner = some (.Notarize q) ∧
      happyEnv.finalize q = .ok (att, secrets) ∧
      happyEnv.serialize att = .ok [1, 2, 3] :=
  c2_successful_sequence happyEnv prover0 c2s1 c2s2 c2s3 "example.com" 443 [1, 2, 3]
    rfl rfl rfl rfl rfl rfl rfl

/-- C3: if `finalize_notarize` is called with a `Notarize`-phase session
held and the engine's finalize exchange (or the serialization of the
attestation) fails, then the call returns the `Finalization failed` error,
the session slot is left empty, no re-initialization is attempted (the
trace holds only the finalize/serialize operations, none of the setup
chain), and a subsequent `connect` returns the wrong-state error. -/
theorem c3_finalize_failure_empties_slot (env : Env) (s : PyProver) (q : NotarizeProver)
    (e : String)
    (hq : s.inner = some (.Notarize q))
    (hfail : env.finalize q = .error e ∨
      ∃ att secrets, env.finalize q = .ok (att, secrets) ∧ env.serialize att = .error e) :
    (PyProver.finalize_notarize env s).result =
      .error (pyRuntimeError ("Finalization failed: " ++ e)) ∧
    (PyProver.finalize_notarize env s).state.inner = none ∧
    (∀ c ∈ (PyProver.finalize_notarize env s).trace,
      c = Call.finalize ∨ c = Call.serialize) ∧
    (∀ host port,
      (PyProver.connect env (PyProver.finalize_notarize env s).state host port).result =
        .error (pyRuntimeError ("No setup prover available"))) := by
  have key : (PyProver.finalize_notarize env s =
        ⟨{ s with inner := none },
         .error (pyRuntimeError ("Finalization failed: " ++ e)), [.finalize]⟩) ∨
      (PyProver.finalize_notarize env s =
        ⟨{ s with inner := none },
         .error (pyRuntimeError ("Finalization failed: " ++ e)), [.finalize, .serialize]⟩) := by
    rcases hfail with hf | ⟨att, secrets, hf, hser⟩
    · left
      simp [PyProver.finalize_notarize, hq, finalizeEngine, hf]
    · right
      simp [PyProver.finalize_notarize, hq, finalizeEngine, hf, hser]
  rcases key with key | key
  all_goals
    have hinner : (PyProver.finalize_notarize env s).state.inner = none := by rw [key]
  all_goals
    refine ⟨by rw [key], hinner, ?_, fun host port => connect_on_none_result env _ host port hinner⟩
  all_goals
    intro c hc
  all_goals
    rw [key] at hc
  all_goals
    simp at hc
  · simp [hc]
  · tauto

/-- C3 witness: a failing finalize exchange at the concrete oracle. -/
theorem c3_witness :
    (PyProver.finalize_notarize finalizeFailEnv proverNotarize).result =
      .error (pyRuntimeError ("Finalization failed: mpc failed")) ∧
    (PyProver.finalize_notarize finalizeFailEnv proverNotarize).state.inner = none ∧
    (∀ c ∈ (PyProver.finalize_notarize finalizeFailEnv proverNotarize).trace,
      c = Call.finalize ∨ c = Call.serialize) ∧
    (∀ host port,
      (PyProver.connect finalizeFailEnv
        (PyProver.finalize_notarize finalizeFailEnv proverNotarize).state host port).result =
        .error (pyRuntimeError ("No setup prover available"))) :=
  c3_finalize_failure_empties_slot finalizeFailEnv proverNotarize ⟨9⟩ "mpc failed" rfl
    (Or.inl rfl)

/-- C4: when the finalize exchange and the serialization succeed but the
automatic follow-up `reset` fails, `finalize_notarize` returns the
re-initialization error (`Reset failed after finalize: ...`) and the
already-obtained attestation bytes are not returned to the caller. -/
theorem c4_reset_failure_after_finalize (env : Env) (s : PyProver) (q : NotarizeProver)
    (att : Attestation) (secrets : Secrets) (bs : List Nat) (e : PyErr)
    (hq : s.inner = some (.Notarize q))
    (hf : env.finalize q = .ok (att, secrets))
    (hser : env.serialize att = .ok bs)
    (hr : (PyProver.reset env { s with inner := none }).result = .error e) :
    (PyProver.finalize_notarize env s).result =
      .error (pyRuntimeError ("Reset failed after finalize: " ++ e.display)) ∧
    ∀ bs2, (PyProver.finalize_notarize env s).result ≠ .ok bs2 := by
  cases hR : PyProver.reset env { s with inner := none } with
  | mk rst rres rtr =>
    have hres : rres = .error e := by rw [hR] at hr; exact hr
    subst hres
    have key : (PyProver.finalize_notarize env s).result =
        .error (pyRuntimeError ("Reset failed after finalize: " ++ e.display)) := by
      simp [PyProver.finalize_notarize, hq, finalizeEngine, hf, hser, hR]
    exact ⟨key, fun bs2 hcontra => by rw [key] at hcontra; cases hcontra⟩

/-- C4 witness: finalize and serialization succeed at the concrete oracle
whose notary client cannot be rebuilt, so the automatic reset fails. -/
theorem c4_witness :
    (PyProver.finalize_notarize clientFailEnv proverNotarize).result =
      .error (pyRuntimeError
        ("Reset failed after finalize: RuntimeError: Setup failed: client down")) ∧
    ∀ bs2, (PyProver.finalize_notarize clientFailEnv proverNotarize).result ≠ .ok bs2 :=
  c4_reset_failure_after_finalize clientFailEnv proverNotarize ⟨9⟩ ⟨10⟩ ⟨11⟩ [1, 2, 3]
    (pyRuntimeError ("Setup failed: client down")) rfl rfl rfl rfl

/-- C6 (amended): `connect` uses only the first resolved address (every
TCP connection attempt in the trace targets the head of the resolution
result — no fallback to later candidates); when resolution yields no
usable address the call fails with the `RuntimeError`
`Connect failed: Invalid server address`; and every `connect` failure —
resolution or transport/engine alike — carries the same error kind: class
`RuntimeError` with the `Connect failed: ` message prefix.  The two
situations are distinguishable only by the embedded cause message, not by
a distinct error kind. -/
theorem c6_first_address_and_uniform_error_kind (env : Env) (s : PyProver) (p : SetupProver)
    (server_host : String) (server_port : Nat)
    (hp : s.inner = some (.Setup p)) :
    (env.resolve server_host server_port = .ok [] →
      (PyProver.connect env s server_host server_port).result =
        .error (pyRuntimeError ("Connect failed: Invalid server address"))) ∧
    (∀ addr rest, env.resolve server_host server_port = .ok (addr :: rest) →
      ∀ a, Call.tcpConnect a ∈ (PyProver.connect env s server_host server_port).trace →
        a = addr) ∧
    (∀ e, (PyProver.connect env s server_host server_port).result = .error e →
      e.className = "RuntimeError" ∧ ∃ m, e.msg = "Connect failed: " ++ m) := by
  refine ⟨fun hres => ?_, fun addr rest hres a ha => ?_, fun e he => ?_⟩
  · simp only [PyProver.connect, hp, connectEngine, hres]
    rfl
  · rw [connect_trace env s p server_host server_port hp] at ha
    simp only [connectEngine, hres] at ha
    cases hc : env.tcpConnect addr with
    | error e =>
      simp [hc] at ha
      exact ha
    | ok conn =>
      cases hpc : env.proverConnect p conn with
      | error e =>
        simp [hc, hpc] at ha
        exact ha
      | ok fut =>
        cases haw : env.awaitConnectFut fut with
        | error e =>
          simp [hc, hpc, haw] at ha
          exact ha
        | ok closed =>
          simp [hc, hpc, haw] at ha
          exact ha
  · cases hE : connectEngine env p server_host server_port with
    | mk r t =>
      cases r with
      | error m =>
        have key : (PyProver.connect env s server_host server_port).result =
            .error (pyRuntimeError ("Connect failed: " ++ m)) := by
          simp [PyProver.connect, hp, hE]
        rw [key] at he
        injection he with he2
        exact ⟨by rw [← he2]; rfl, ⟨m, by rw [← he2]; rfl⟩⟩
      | ok cl =>
        have key : (PyProver.connect env s server_host server_port).result = .ok () := by
          simp [PyProver.connect, hp, hE]
        rw [key] at he
        cases he

/-- C6 counterexample: at concrete oracles, a resolution failure
(`not-a-real-host` resolving to no address) and an engine failure both
raise an error of exactly the same kind — Python class `RuntimeError`
with the `Connect failed: ` prefix — refuting the claim that the
address-resolution error is of a distinct kind from the transport/engine
error. -/
theorem c6_counterexample :
    (PyProver.connect noAddrEnv proverSetup "not-a-real-host" 9999).result =
      .error { className := "RuntimeError", msg := "Connect failed: Invalid server address" } ∧
    (PyProver.connect engineFailEnv proverSetup "example.com" 443).result =
      .error { className := "RuntimeError", msg := "Connect failed: engine exchange failed" } ∧
    ({ className := "RuntimeError", msg := "Connect failed: Invalid server address" } : PyErr).className =
      ({ className := "RuntimeError", msg := "Connect failed: engine exchange failed" } : PyErr).className :=
  ⟨rfl, rfl, rfl⟩

/-- C6 witness: the amended statement at the concrete no-address oracle. -/
theorem c6_witness :
    (PyProver.connect noAddrEnv proverSetup "not-a-real-host" 9999).result =
      .error (pyRuntimeError ("Connect failed: Invalid server address")) :=
  (c6_first_address_and_uniform_error_kind noAddrEnv proverSetup ⟨5⟩
    "not-a-real-host" 9999 rfl).1 rfl

/-- C9: every `reset` requests notarization and configures the protocol
with send/receive limits fixed at exactly 10000 bytes each — for every
oracle and every receiver state (hence regardless of what any public
operation did before), every request-building and protocol-config call in
the trace carries 10000/10000, and a successful `reset` does drive both
calls; and the constructor takes only coordinator host, coordinator port
and target server name, holding no limit field at all. -/
theorem c9_limits_hard_coded (env : Env) (s : PyProver)
    (host : String) (port : Nat) (name : String) :
    (∀ a b, Call.buildRequest a b ∈ (PyProver.reset env s).trace → a = 10000 ∧ b = 10000) ∧
    (∀ a b, Call.buildProtocolConfig a b ∈ (PyProver.reset env s).trace →
      a = 10000 ∧ b = 10000) ∧
    ((PyProver.reset env s).result = .ok () →
      Call.buildRequest 10000 10000 ∈ (PyProver.reset env s).trace ∧
      Call.buildProtocolConfig 10000 10000 ∈ (PyProver.reset env s).trace) ∧
    PyProver.new host port name =
      { notary_host := host, notary_port := port, server_name := name, inner := none } := by
  refine ⟨fun a b hab => ?_, fun a b hab => ?_, fun hok => ?_, rfl⟩
  · rw [reset_trace] at hab
    have hcall := resetEngine_trace_calls env s _ hab
    simp_all
  · rw [reset_trace] at hab
    have hcall := resetEngine_trace_calls env s _ hab
    simp_all
  · cases hE : resetEngine env s with
    | mk r t =>
      cases r with
      | error e => exact absurd hok (by simp [PyProver.reset, hE])
      | ok p =>
        have htr := resetEngine_ok_trace env s p (by rw [hE])
        rw [reset_trace, htr]
        constructor <;> simp

/-- C9 witness: a successful `reset` at the concrete oracle drives both
limit-carrying calls with 10000/10000. -/
theorem c9_witness :
    Call.buildRequest 10000 10000 ∈ (PyProver.reset happyEnv prover0).trace ∧
    Call.buildProtocolConfig 10000 10000 ∈ (PyProver.reset happyEnv prover0).trace :=
  (c9_limits_hard_coded happyEnv prover0 "localhost" 7047 "example.com").2.2.1 rfl

/-- C8: `stop()` always returns success; it sends the shutdown signal
exactly when a sender is outstanding and awaits the task handle exactly
when one is stored (in that order), taking both so each is consumed at
most once (a second `stop` performs no effects); and with no sender and
no handle held — in particular before any `start()` — it is a safe no-op
that performs nothing and leaves the receiver unchanged. -/
theorem c8_stop_characterization (n : PyNotary) :
    (PyNotary.stop n).result = .ok () ∧
    (PyNotary.stop n).state.shutdown_tx = none ∧
    (PyNotary.stop n).state.server_handle = none ∧
    (PyNotary.stop n).effects =
      ((match n.shutdown_tx with
        | some tx => [NotaryEffect.sendShutdown tx]
        | none => ([] : List NotaryEffect)) ++
       (match n.server_handle with
        | some handle => [NotaryEffect.awaitTask handle]
        | none => ([] : List NotaryEffect))) ∧
    ((n.shutdown_tx = none ∧ n.server_handle = none) →
      (PyNotary.stop n).effects = [] ∧ (PyNotary.stop n).state = n) ∧
    (PyNotary.stop (PyNotary.stop n).state).effects = [] := by
  cases htx : n.shutdown_tx <;> cases hh : n.server_handle <;>
    simp [PyNotary.stop, htx, hh]

/-- C8 witness: `stop` before any `start` on the concrete wrapper. -/
theorem c8_witness :
    (PyNotary.stop notary0).result = .ok () ∧
    (PyNotary.stop notary0).effects = [] ∧
    (PyNotary.stop notary0).state = notary0 :=
  ⟨(c8_stop_characterization notary0).1,
   ((c8_stop_characterization notary0).2.2.2.2.1 ⟨rfl, rfl⟩).1,
   ((c8_stop_characterization notary0).2.2.2.2.1 ⟨rfl, rfl⟩).2⟩

/-- Two consecutive `start` calls without an intervening `stop`. -/
def startStart (rt : RuntimeState) (n : PyNotary) : RuntimeState × NotaryResult Unit :=
  PyNotary.start (PyNotary.start rt n).1 (PyNotary.start rt n).2.state

/-- C10: a second `start()` without an intervening `stop()`
unconditionally replaces both the stored shutdown sender and the stored
task handle with fresh ones; the first task's handle is never awaited
(neither `start` performs any await), and a subsequent `stop()` signals
and joins only the most recently started task — it neither sends on the
first sender nor awaits the first handle. -/
theorem c10_second_start_replaces (rt : RuntimeState) (n : PyNotary) :
    (PyNotary.start rt n).2.state.shutdown_tx = some ⟨rt.next_id⟩ ∧
    (PyNotary.start rt n).2.state.server_handle = some ⟨rt.next_id + 1⟩ ∧
    (startStart rt n).2.state.shutdown_tx = some ⟨rt.next_id + 2⟩ ∧
    (startStart rt n).2.state.server_handle = some ⟨rt.next_id + 3⟩ ∧
    ((⟨rt.next_id + 2⟩ : ShutdownSender) ≠ ⟨rt.next_id⟩) ∧
    ((⟨rt.next_id + 3⟩ : TaskHandle) ≠ ⟨rt.next_id + 1⟩) ∧
    (∀ handle, NotaryEffect.awaitTask handle ∉
      (PyNotary.start rt n).2.effects ++ (startStart rt n).2.effects) ∧
    (PyNotary.stop (startStart rt n).2.state).effects =
      [.sendShutdown ⟨rt.next_id + 2⟩, .awaitTask ⟨rt.next_id + 3⟩] ∧
    NotaryEffect.awaitTask ⟨rt.next_id + 1⟩ ∉
      (PyNotary.stop (startStart rt n).2.state).effects ∧
    NotaryEffect.sendShutdown ⟨rt.next_id⟩ ∉
      (PyNotary.stop (startStart rt n).2.state).effects := by
  refine ⟨rfl, rfl, rfl, rfl, ?_, ?_, ?_, rfl, ?_, ?_⟩
  · intro h
    have h2 : rt.next_id + 2 = rt.next_id := congrArg ShutdownSender.id h
    omega
  · intro h
    have h2 : rt.next_id + 3 = rt.next_id + 1 := congrArg TaskHandle.id h
    omega
  · intro handle
    simp [PyNotary.start, startStart]
  · simp [PyNotary.start, PyNotary.stop, startStart]
  · simp [PyNotary.start, PyNotary.stop, startStart]

/-- C10 witness: the replacement and most-recent-only shutdown at the
concrete wrapper and a fresh runtime. -/
theorem c10_witness :
    (startStart rt0 notary0).2.state.shutdown_tx = some ⟨2⟩ ∧
    (startStart rt0 notary0).2.state.server_handle = some ⟨3⟩ ∧
    (PyNotary.stop (startStart rt0 notary0).2.state).effects =
      [.sendShutdown ⟨2⟩, .awaitTask ⟨3⟩] :=
  ⟨(c10_second_start_replaces rt0 notary0).2.2.1,
   (c10_second_start_replaces rt0 notary0).2.2.2.1,
   (c10_second_start_replaces rt0 notary0).2.2.2.2.2.2.2.1⟩

end Tlsnpy
